import Mathlib

/-!
Shallow embedding of the `kakao-developers-client` Go repository:
the Daum book-search iterator (`daum` package, `BookSearchIterator`) and the
Kakao vision face detector (`vision` package, `FaceDetectInitializer`),
together with the parts of the `internal/common` package they use.

Conventions of the embedding:
* Go `int` / `int64` become `Int`; Go `float64` becomes `ℚ` (the claims under
  study never depend on rounding of binary floating point, only on control
  flow and field plumbing).
* A Go method that can `panic` is embedded as a function returning the
  post-state together with `panicked : Option GoErr` (the value passed to
  `panic`, or `none`) and `logPanicked : Bool` (whether the `log.Panicln`
  call inside the trailing `if r := recover(); r != nil` block executed).
  Go semantics encoded here: a call to `recover()` placed in the normal
  body of a function (not in a deferred function) returns `nil` while no
  panic is in flight, and once `panic` fires the rest of the function body
  never runs, so the recover line is skipped entirely on the panicking path.
* The network is an oracle argument: the outcome that the HTTP request /
  JSON decode would produce is passed in, and the embedding records which
  URL (if any) was requested, so "no network call happened" is expressible.
* The file system is a map from file names to contents.
-/

/-- Go `unicode.IsSpace`: the Unicode white-space code points recognised by
`strings.TrimSpace`. -/
def goIsSpace (c : Char) : Bool :=
  let n := c.toNat
  n == 9 || n == 10 || n == 11 || n == 12 || n == 13 || n == 32 ||
  n == 0x85 || n == 0xA0 || n == 0x1680 ||
  (decide (0x2000 ≤ n) && decide (n ≤ 0x200A)) ||
  n == 0x2028 || n == 0x2029 || n == 0x202F || n == 0x205F || n == 0x3000

/-- Go `strings.TrimSpace`: drop leading and trailing white space. -/
def goTrimSpace (s : String) : String :=
  String.mk (((s.toList.dropWhile goIsSpace).reverse.dropWhile goIsSpace).reverse)

/-- UTF-8 encoding of a code point, as the list of its byte values.
Go strings are UTF-8, and `url.QueryEscape` works byte by byte. -/
def utf8Bytes (c : Char) : List Nat :=
  let n := c.toNat
  if n < 0x80 then [n]
  else if n < 0x800 then [0xC0 + n / 64, 0x80 + n % 64]
  else if n < 0x10000 then [0xE0 + n / 4096, 0x80 + (n / 64) % 64, 0x80 + n % 64]
  else [0xF0 + n / 262144, 0x80 + (n / 4096) % 64, 0x80 + (n / 64) % 64, 0x80 + n % 64]

/-- Upper-case hexadecimal digit, as used by Go `net/url` escaping. -/
def hexUpper (n : Nat) : Char :=
  if n < 10 then Char.ofNat (48 + n) else Char.ofNat (55 + n)

/-- Bytes Go `url.QueryEscape` leaves unescaped: ASCII letters, digits,
and `-`, `.`, `_`, `~`. -/
def queryUnescapedByte (n : Nat) : Bool :=
  (decide (65 ≤ n) && decide (n ≤ 90)) ||
  (decide (97 ≤ n) && decide (n ≤ 122)) ||
  (decide (48 ≤ n) && decide (n ≤ 57)) ||
  n == 45 || n == 46 || n == 95 || n == 126

/-- One byte of Go `url.QueryEscape` output: space becomes `+`, unescaped
bytes stay, every other byte becomes `%XX` with upper-case hex. -/
def escapeQueryByte (n : Nat) : List Char :=
  if n == 32 then [Char.ofNat 43]
  else if queryUnescapedByte n then [Char.ofNat n]
  else [Char.ofNat 37, hexUpper (n / 16), hexUpper (n % 16)]

/-- Go `url.QueryEscape`. -/
def QueryEscape (s : String) : String :=
  String.mk (((s.toList.map utf8Bytes).flatten.map escapeQueryByte).flatten)

/-- `lhasPre pat l` is true when `pat` is an initial segment of `l`. -/
def lhasPre : List Char → List Char → Bool
  | [], _ => true
  | _ :: _, [] => false
  | a :: as, b :: bs => a == b && lhasPre as bs

/-- `lhasSub pat l` is true when `pat` occurs contiguously inside `l`
(Go `strings.Contains`, specialised to rune lists). -/
def lhasSub (pat : List Char) : List Char → Bool
  | [] => lhasPre pat []
  | b :: bs => lhasPre pat (b :: bs) || lhasSub pat bs

/-- Go `strings.Contains` on strings. -/
def strContains (s pat : String) : Bool := lhasSub pat.toList s.toList

/-- The Go error values the embedded code can return or panic with. -/
inductive GoErr where
  /-- `common.ErrUnsupportedSortingOrder` -/
  | unsupportedSortingOrder
  /-- `common.ErrPageOutOfBound` -/
  | pageOutOfBound
  /-- `common.ErrSizeOutOfBound` -/
  | sizeOutOfBound
  /-- the `errors.New` literal in `BookSearchIterator.Filter` -/
  | filterTarget
  /-- the `errors.New` literal in `FaceDetectInitializer.ThresholdAt` -/
  | threshold
  /-- `ErrEndPage`, the pagination-exhausted sentinel -/
  | endPage
  /-- an `os.Open` failure on the named file -/
  | osOpen (filename : String)
  /-- any transport-level error: request construction, `client.Do`,
  multipart assembly, or JSON decoding -/
  | transport (msg : String)
deriving DecidableEq, Repr

/-- Modelled from the spec: the fixed authorization prefix constant of the
`internal/common` package (the spec's "key ... formatted with a fixed
prefix"); its source file is not part of the excerpt. -/
def keyPfx : String := "KakaoAK "

/-- Modelled from the spec: `common.FormatKey` prepends the fixed prefix to
the caller-supplied credential string. -/
def FormatKey (key : String) : String := keyPfx ++ key

/-- Modelled from the spec: `common.PageableMeta`, the pagination metadata
block ("total count, end-of-results flag"); its source file is not part of
the excerpt. -/
structure PageableMeta where
  TotalCount : Int
  IsEnd : Bool
deriving DecidableEq, Repr

/-- Modelled from the spec: the embedded `WebResult` record of a Daum web
document (primitive string fields); its source file is not part of the
excerpt. -/
structure WebResult where
  Title : String
  Contents : String
  URL : String
  Datetime : String
deriving DecidableEq, Repr

/-- `BookResult`: a document of a Daum book search result.  The Go struct
embeds `WebResult`; the embedding is the `web` field here. -/
structure BookResult where
  web : WebResult
  ISBN : String
  Authors : List String
  Publisher : String
  Translators : List String
  Price : Int
  SalePrice : Int
  Thumbnail : String
  Status : String
deriving DecidableEq, Repr

/-- `BookSearchResult`: one decoded page of a Daum book search. -/
structure BookSearchResult where
  Meta : PageableMeta
  Documents : List BookResult
deriving DecidableEq, Repr

/-- Go zero value of `PageableMeta`. -/
def zeroMeta : PageableMeta := { TotalCount := 0, IsEnd := false }

/-- Go zero value of `BookSearchResult`, the value the named return `res`
holds on every early-return path of `Next`. -/
def zeroBookSearchResult : BookSearchResult := { Meta := zeroMeta, Documents := [] }

/-- `BookSearchResults`: a slice of pages (receiver of `SaveAs`). -/
def BookSearchResults := List BookSearchResult

/-- `BookSearchIterator`: the lazy book search iterator.  The unexported Go
field `end` is called `endFlag` here (`end` is a Lean keyword). -/
structure BookSearchIterator where
  Query : String
  AuthKey : String
  «Sort» : String
  Page : Int
  Size : Int
  Target : String
  endFlag : Bool
deriving DecidableEq, Repr

/-- `BookSearch(query)`: constructor with the documented defaults. -/
def BookSearch (query : String) : BookSearchIterator :=
  { Query := QueryEscape (goTrimSpace query)
    AuthKey := keyPfx
    «Sort» := "accuracy"
    Page := 1
    Size := 10
    Target := ""
    endFlag := false }

/-- `AuthorizeWith`: sets the authorization key (no validation, no panic). -/
def BookSearchIterator.AuthorizeWith (bi : BookSearchIterator) (key : String) :
    BookSearchIterator :=
  { bi with AuthKey := FormatKey key }

/-- Outcome of one setter call on a `BookSearchIterator`: post-state, the
panic value if the call panicked, and whether the `log.Panicln` inside the
trailing recover block executed. -/
structure SetterOutcome where
  post : BookSearchIterator
  panicked : Option GoErr
  logPanicked : Bool
deriving DecidableEq, Repr

/-- Go semantics: `recover()` evaluated in straight-line (non-deferred) code
while no panic is in flight returns `nil`. -/
def recoverNormal : Option GoErr := none

/-- `SortBy`: switch on `order`; valid orders update `Sort`, anything else
panics with `common.ErrUnsupportedSortingOrder` (and the function body ends
there, so the recover line is never reached on that path). -/
def BookSearchIterator.SortBy (bi : BookSearchIterator) (order : String) : SetterOutcome :=
  if order = "accuracy" ∨ order = "latest" then
    { post := { bi with «Sort» := order }
      panicked := none
      logPanicked := recoverNormal.isSome }
  else
    { post := bi, panicked := some .unsupportedSortingOrder, logPanicked := false }

/-- `Result`: sets the page number when it lies in `[1, 50]`, otherwise
panics with `common.ErrPageOutOfBound`. -/
def BookSearchIterator.Result (bi : BookSearchIterator) (page : Int) : SetterOutcome :=
  if 1 ≤ page ∧ page ≤ 50 then
    { post := { bi with Page := page }
      panicked := none
      logPanicked := recoverNormal.isSome }
  else
    { post := bi, panicked := some .pageOutOfBound, logPanicked := false }

/-- `Display`: sets the page size when it lies in `[1, 50]`, otherwise
panics with `common.ErrSizeOutOfBound`. -/
def BookSearchIterator.Display (bi : BookSearchIterator) (size : Int) : SetterOutcome :=
  if 1 ≤ size ∧ size ≤ 50 then
    { post := { bi with Size := size }
      panicked := none
      logPanicked := recoverNormal.isSome }
  else
    { post := bi, panicked := some .sizeOutOfBound, logPanicked := false }

/-- `Filter`: switch on `target`; the five listed strings (including the
empty string) update `Target`, anything else panics. -/
def BookSearchIterator.Filter (bi : BookSearchIterator) (target : String) : SetterOutcome :=
  if target = "title" ∨ target = "isbn" ∨ target = "publisher" ∨
      target = "person" ∨ target = "" then
    { post := { bi with Target := target }
      panicked := none
      logPanicked := recoverNormal.isSome }
  else
    { post := bi, panicked := some .filterTarget, logPanicked := false }

/-- The URL `Next` formats with `fmt.Sprintf` from the iterator state. -/
def bookSearchURL (bi : BookSearchIterator) : String :=
  "https://dapi.kakao.com/v3/search/book?query=" ++ bi.Query ++
  "&sort=" ++ bi.«Sort» ++ "&page=" ++ toString bi.Page ++
  "&size=" ++ toString bi.Size ++ "&target=" ++ bi.Target

/-- Oracle for one book-search HTTP round trip: which step fails, or the
decoded response.  `decodeErr` carries the partially decoded value left in
the named return `res` by `json.Decoder.Decode`. -/
inductive NetOutcome where
  | newRequestErr (msg : String)
  | doErr (msg : String)
  | decodeErr (msg : String) (part : BookSearchResult)
  | ok (r : BookSearchResult)
deriving DecidableEq, Repr

/-- Outcome of one `Next` call: post-state, the returned pair, and the URL
requested over the network (`none` when no request was performed). -/
structure NextOutcome where
  post : BookSearchIterator
  res : BookSearchResult
  err : Option GoErr
  requestedURL : Option String
deriving DecidableEq, Repr

/-- `Next`: returns `ErrEndPage` immediately when the iterator is exhausted;
otherwise performs one GET for the current page, and on a successful decode
increments `Page` and recomputes `end` as `res.Meta.IsEnd || 50 < bi.Page`
(evaluated after the increment). -/
def BookSearchIterator.Next (bi : BookSearchIterator) (net : NetOutcome) : NextOutcome :=
  if bi.endFlag then
    { post := bi, res := zeroBookSearchResult, err := some .endPage, requestedURL := none }
  else
    match net with
    | .newRequestErr m =>
      { post := bi, res := zeroBookSearchResult
        err := some (.transport m), requestedURL := none }
    | .doErr m =>
      { post := bi, res := zeroBookSearchResult
        err := some (.transport m), requestedURL := some (bookSearchURL bi) }
    | .decodeErr m part =>
      { post := bi, res := part
        err := some (.transport m), requestedURL := some (bookSearchURL bi) }
    | .ok r =>
      { post := { bi with
          Page := bi.Page + 1
          endFlag := r.Meta.IsEnd || decide (50 < bi.Page + 1) }
        res := r, err := none, requestedURL := some (bookSearchURL bi) }

/-- `Face`: data of one detected face (`float64` fields embedded as `ℚ`). -/
structure Gender where
  Male : ℚ
  Female : ℚ
deriving DecidableEq, Repr

/-- `FacialAttributes`: estimated gender and age of the detected face. -/
structure FacialAttributes where
  Gender : Gender
  Age : ℚ
deriving DecidableEq, Repr

/-- `FacialPoints`: coordinate arrays of the detected face. -/
structure FacialPoints where
  Jaw : List (List ℚ)
  RightEyebrow : List (List ℚ)
  LeftEyebrow : List (List ℚ)
  Nose : List (List ℚ)
  RightEye : List (List ℚ)
  LeftEye : List (List ℚ)
  Lip : List (List ℚ)
deriving DecidableEq, Repr

/-- `Face`: one detected face. -/
structure Face where
  FacialAttributes : FacialAttributes
  FacialPoints : FacialPoints
  Score : ℚ
  ClassIdx : Int
  X : ℚ
  Y : ℚ
  W : ℚ
  H : ℚ
  Pitch : ℚ
  Yaw : ℚ
  Roll : ℚ
deriving DecidableEq, Repr

/-- `FaceResult`: one document of a detection result. -/
structure FaceResult where
  Width : Int
  Height : Int
  Faces : List Face
deriving DecidableEq, Repr

/-- `FaceDetectResult`: a face detection result. -/
structure FaceDetectResult where
  RID : String
  Result : FaceResult
deriving DecidableEq, Repr

/-- Go zero value of `FaceDetectResult`, held by the named return `res` on
every early-return path of `Collect`. -/
def zeroFaceDetectResult : FaceDetectResult :=
  { RID := "", Result := { Width := 0, Height := 0, Faces := [] } }

/-- `FaceDetectInitializer`: the lazy face detector configuration. -/
structure FaceDetectInitializer where
  AuthKey : String
  Filename : String
  ImageURL : String
  Threshold : ℚ
  withFile : Bool
deriving DecidableEq, Repr

/-- `FaceDetect()`: constructor with the documented defaults (`withFile` is
left at its Go zero value `false`). -/
def FaceDetect : FaceDetectInitializer :=
  { AuthKey := keyPfx, Filename := "", ImageURL := "", Threshold := 7 / 10, withFile := false }

/-- `WithURL`: selects the image-URL mode. -/
def FaceDetectInitializer.WithURL (fi : FaceDetectInitializer) (url : String) :
    FaceDetectInitializer :=
  { fi with ImageURL := url, withFile := false }

/-- `WithFile`: selects the file-upload mode. -/
def FaceDetectInitializer.WithFile (fi : FaceDetectInitializer) (filename : String) :
    FaceDetectInitializer :=
  { fi with Filename := filename, withFile := true }

/-- `AuthorizeWith` on the face detector. -/
def FaceDetectInitializer.AuthorizeWith (fi : FaceDetectInitializer) (key : String) :
    FaceDetectInitializer :=
  { fi with AuthKey := FormatKey key }

/-- Outcome of one setter call on a `FaceDetectInitializer` (same shape as
`SetterOutcome`). -/
structure FDSetterOutcome where
  post : FaceDetectInitializer
  panicked : Option GoErr
  logPanicked : Bool
deriving DecidableEq, Repr

/-- `ThresholdAt`: sets `Threshold` when `0.1 <= val && val <= 1.0`,
otherwise panics.  (The Go literals `0.1` and `1.0` are the nearest
`float64` values; the claims settled here do not depend on that rounding,
only on which branch runs and on what each branch does.) -/
def FaceDetectInitializer.ThresholdAt (fi : FaceDetectInitializer) (val : ℚ) :
    FDSetterOutcome :=
  if 1 / 10 ≤ val ∧ val ≤ 1 then
    { post := { fi with Threshold := val }
      panicked := none
      logPanicked := recoverNormal.isSome }
  else
    { post := fi, panicked := some .threshold, logPanicked := false }

/-- Oracle for the multipart body assembly of the file-upload branch:
`writer.CreateFormFile` or `io.Copy` may fail. -/
inductive MultipartOutcome where
  | createFormFileErr (msg : String)
  | copyErr (msg : String)
  | okBody
deriving DecidableEq, Repr

/-- Oracle for the face-detect HTTP round trip. -/
inductive VisionNet where
  | newRequestErr (msg : String)
  | doErr (msg : String)
  | decodeErr (msg : String) (part : FaceDetectResult)
  | ok (r : FaceDetectResult)
deriving DecidableEq, Repr

/-- Outcome of one `Collect` call: the returned pair, and whether
`client.Do` (the network transfer) was reached. -/
structure CollectOutcome where
  res : FaceDetectResult
  err : Option GoErr
  networkAttempted : Bool
deriving DecidableEq, Repr

/-- `Collect`: the executor of the face detector.  `fileSize` models the
file system (`os.Open` + `Stat`: the size of each existing file).

Faithful to the source, including its oversized-file slip: in the
file branch, after `os.Open` succeeds the block-local `err` is `nil`, and
the guard `if stat, _ := file.Stat(); 2*1024*1024 < stat.Size()` executes
`return res, err` — returning the *nil* `err` (and the zero `res`) rather
than a constructed error. -/
def FaceDetectInitializer.Collect (fi : FaceDetectInitializer)
    (fileSize : String → Option Int) (mp : MultipartOutcome) (net : VisionNet) :
    CollectOutcome :=
  if fi.withFile then
    match fileSize fi.Filename with
    | none =>
      { res := zeroFaceDetectResult, err := some (.osOpen fi.Filename)
        networkAttempted := false }
    | some size =>
      if 2 * 1024 * 1024 < size then
        -- source: `return res, err` with the shadowed, necessarily-nil `err`
        { res := zeroFaceDetectResult, err := none, networkAttempted := false }
      else
        match mp with
        | .createFormFileErr m =>
          { res := zeroFaceDetectResult, err := some (.transport m)
            networkAttempted := false }
        | .copyErr m =>
          { res := zeroFaceDetectResult, err := some (.transport m)
            networkAttempted := false }
        | .okBody =>
          match net with
          | .newRequestErr m =>
            { res := zeroFaceDetectResult, err := some (.transport m)
              networkAttempted := false }
          | .doErr m =>
            { res := zeroFaceDetectResult, err := some (.transport m)
              networkAttempted := true }
          | .decodeErr m part =>
            { res := part, err := some (.transport m), networkAttempted := true }
          | .ok r =>
            { res := r, err := none, networkAttempted := true }
  else
    match net with
    | .newRequestErr m =>
      { res := zeroFaceDetectResult, err := some (.transport m)
        networkAttempted := false }
    | .doErr m =>
      { res := zeroFaceDetectResult, err := some (.transport m)
        networkAttempted := true }
    | .decodeErr m part =>
      { res := part, err := some (.transport m), networkAttempted := true }
    | .ok r =>
      { res := r, err := none, networkAttempted := true }

/-- A JSON value (numbers as exact `ℚ`, objects as ordered field lists). -/
inductive JsonVal where
  | jnull
  | jbool (b : Bool)
  | jnum (q : ℚ)
  | jstr (s : String)
  | jarr (xs : List JsonVal)
  | jobj (fields : List (String × JsonVal))

/-- First field of an object with the given name (`encoding/json` field
lookup; the encoders below never emit duplicate names). -/
def jlookup (name : String) : List (String × JsonVal) → Option JsonVal
  | [] => none
  | (k, v) :: rest => if k = name then some v else jlookup name rest

/-- Decode a JSON string. -/
def asStr : JsonVal → Option String
  | .jstr s => some s
  | _ => none

/-- Decode a JSON number. -/
def asNum : JsonVal → Option ℚ
  | .jnum q => some q
  | _ => none

/-- Decode a JSON boolean. -/
def asBool : JsonVal → Option Bool
  | .jbool b => some b
  | _ => none

/-- Encode a Go `int` as a JSON number. -/
def encInt (i : Int) : JsonVal := .jnum (i : ℚ)

/-- Decode a JSON number into a Go `int` (must be integral). -/
def asInt : JsonVal → Option Int
  | .jnum q => if q.den = 1 then some q.num else none
  | _ => none

/-- Decode every element of a list, failing if any element fails. -/
def optMap (d : JsonVal → Option α) : List JsonVal → Option (List α)
  | [] => some []
  | x :: xs =>
    match d x, optMap d xs with
    | some a, some as => some (a :: as)
    | _, _ => none

/-- Encode a `[]float64`. -/
def encNumArr (xs : List ℚ) : JsonVal := .jarr (xs.map .jnum)

/-- Decode a `[]float64`. -/
def decNumArr : JsonVal → Option (List ℚ)
  | .jarr xs => optMap asNum xs
  | _ => none

/-- Encode a `[][]float64`. -/
def encNumArr2 (xs : List (List ℚ)) : JsonVal := .jarr (xs.map encNumArr)

/-- Decode a `[][]float64`. -/
def decNumArr2 : JsonVal → Option (List (List ℚ))
  | .jarr xs => optMap decNumArr xs
  | _ => none

/-- Encode a `[]string`. -/
def encStrArr (xs : List String) : JsonVal := .jarr (xs.map .jstr)

/-- Decode a `[]string`. -/
def decStrArr : JsonVal → Option (List String)
  | .jarr xs => optMap asStr xs
  | _ => none

/-- Encode `Gender` with its JSON tags. -/
def encGender (g : Gender) : JsonVal :=
  .jobj [("male", .jnum g.Male), ("female", .jnum g.Female)]

/-- Decode `Gender`. -/
def decGender : JsonVal → Option Gender
  | .jobj fs =>
    match (jlookup "male" fs).bind asNum, (jlookup "female" fs).bind asNum with
    | some m, some f => some { Male := m, Female := f }
    | _, _ => none
  | _ => none

/-- Encode `FacialAttributes`. -/
def encFacialAttributes (a : FacialAttributes) : JsonVal :=
  .jobj [("gender", encGender a.Gender), ("age", .jnum a.Age)]

/-- Decode `FacialAttributes`. -/
def decFacialAttributes : JsonVal → Option FacialAttributes
  | .jobj fs =>
    match (jlookup "gender" fs).bind decGender, (jlookup "age" fs).bind asNum with
    | some g, some a => some { Gender := g, Age := a }
    | _, _ => none
  | _ => none

/-- Encode `FacialPoints`. -/
def encFacialPoints (p : FacialPoints) : JsonVal :=
  .jobj [("jaw", encNumArr2 p.Jaw), ("right_eyebrow", encNumArr2 p.RightEyebrow),
         ("left_eyebrow", encNumArr2 p.LeftEyebrow), ("nose", encNumArr2 p.Nose),
         ("right_eye", encNumArr2 p.RightEye), ("left_eye", encNumArr2 p.LeftEye),
         ("lip", encNumArr2 p.Lip)]

/-- Decode `FacialPoints`. -/
def decFacialPoints : JsonVal → Option FacialPoints
  | .jobj fs =>
    match (jlookup "jaw" fs).bind decNumArr2, (jlookup "right_eyebrow" fs).bind decNumArr2,
          (jlookup "left_eyebrow" fs).bind decNumArr2, (jlookup "nose" fs).bind decNumArr2,
          (jlookup "right_eye" fs).bind decNumArr2, (jlookup "left_eye" fs).bind decNumArr2,
          (jlookup "lip" fs).bind decNumArr2 with
    | some j, some re, some le, some n, some ry, some ly, some l =>
      some { Jaw := j, RightEyebrow := re, LeftEyebrow := le, Nose := n,
             RightEye := ry, LeftEye := ly, Lip := l }
    | _, _, _, _, _, _, _ => none
  | _ => none

/-- Encode `Face`. -/
def encFace (f : Face) : JsonVal :=
  .jobj [("facial_attributes", encFacialAttributes f.FacialAttributes),
         ("facial_points", encFacialPoints f.FacialPoints),
         ("score", .jnum f.Score), ("class_idx", encInt f.ClassIdx),
         ("x", .jnum f.X), ("y", .jnum f.Y), ("w", .jnum f.W), ("h", .jnum f.H),
         ("pitch", .jnum f.Pitch), ("yaw", .jnum f.Yaw), ("roll", .jnum f.Roll)]

/-- Decode `Face`. -/
def decFace : JsonVal → Option Face
  | .jobj fs =>
    match (jlookup "facial_attributes" fs).bind decFacialAttributes,
          (jlookup "facial_points" fs).bind decFacialPoints,
          (jlookup "score" fs).bind asNum, (jlookup "class_idx" fs).bind asInt,
          (jlookup "x" fs).bind asNum, (jlookup "y" fs).bind asNum,
          (jlookup "w" fs).bind asNum, (jlookup "h" fs).bind asNum,
          (jlookup "pitch" fs).bind asNum, (jlookup "yaw" fs).bind asNum,
          (jlookup "roll" fs).bind asNum with
    | some fa, some fp, some s, some c, some x, some y, some w, some h,
      some pi, some ya, some ro =>
      some { FacialAttributes := fa, FacialPoints := fp, Score := s, ClassIdx := c,
             X := x, Y := y, W := w, H := h, Pitch := pi, Yaw := ya, Roll := ro }
    | _, _, _, _, _, _, _, _, _, _, _ => none
  | _ => none

/-- Encode `FaceResult`. -/
def encFaceResult (r : FaceResult) : JsonVal :=
  .jobj [("width", encInt r.Width), ("height", encInt r.Height),
         ("faces", .jarr (r.Faces.map encFace))]

/-- Decode `FaceResult`. -/
def decFaceResult : JsonVal → Option FaceResult
  | .jobj fs =>
    match (jlookup "width" fs).bind asInt, (jlookup "height" fs).bind asInt,
          (jlookup "faces" fs).bind (fun j =>
            match j with
            | .jarr xs => optMap decFace xs
            | _ => none) with
    | some w, some h, some faces => some { Width := w, Height := h, Faces := faces }
    | _, _, _ => none
  | _ => none

/-- Encode `FaceDetectResult`. -/
def encFaceDetectResult (r : FaceDetectResult) : JsonVal :=
  .jobj [("rid", .jstr r.RID), ("result", encFaceResult r.Result)]

/-- Decode `FaceDetectResult`. -/
def decFaceDetectResult : JsonVal → Option FaceDetectResult
  | .jobj fs =>
    match (jlookup "rid" fs).bind asStr, (jlookup "result" fs).bind decFaceResult with
    | some rid, some res => some { RID := rid, Result := res }
    | _, _ => none
  | _ => none

/-- Encode `PageableMeta`. -/
def encMeta (m : PageableMeta) : JsonVal :=
  .jobj [("total_count", encInt m.TotalCount), ("is_end", .jbool m.IsEnd)]

/-- Decode `PageableMeta`. -/
def decMeta : JsonVal → Option PageableMeta
  | .jobj fs =>
    match (jlookup "total_count" fs).bind asInt, (jlookup "is_end" fs).bind asBool with
    | some t, some e => some { TotalCount := t, IsEnd := e }
    | _, _ => none
  | _ => none

/-- Encode `BookResult` (the embedded `WebResult` is flattened into the
same object, as `encoding/json` does for embedded structs). -/
def encBookResult (b : BookResult) : JsonVal :=
  .jobj [("title", .jstr b.web.Title), ("contents", .jstr b.web.Contents),
         ("url", .jstr b.web.URL), ("datetime", .jstr b.web.Datetime),
         ("isbn", .jstr b.ISBN), ("authors", encStrArr b.Authors),
         ("publisher", .jstr b.Publisher), ("translators", encStrArr b.Translators),
         ("price", encInt b.Price), ("sale_price", encInt b.SalePrice),
         ("thumbnail", .jstr b.Thumbnail), ("status", .jstr b.Status)]

/-- Decode `BookResult`. -/
def decBookResult : JsonVal → Option BookResult
  | .jobj fs =>
    match (jlookup "title" fs).bind asStr, (jlookup "contents" fs).bind asStr,
          (jlookup "url" fs).bind asStr, (jlookup "datetime" fs).bind asStr,
          (jlookup "isbn" fs).bind asStr, (jlookup "authors" fs).bind decStrArr,
          (jlookup "publisher" fs).bind asStr, (jlookup "translators" fs).bind decStrArr,
          (jlookup "price" fs).bind asInt, (jlookup "sale_price" fs).bind asInt,
          (jlookup "thumbnail" fs).bind asStr, (jlookup "status" fs).bind asStr with
    | some ti, some co, some u, some dt, some isbn, some au, some pub, some tr,
      some pr, some sp, some th, some st =>
      some { web := { Title := ti, Contents := co, URL := u, Datetime := dt },
             ISBN := isbn, Authors := au, Publisher := pub, Translators := tr,
             Price := pr, SalePrice := sp, Thumbnail := th, Status := st }
    | _, _, _, _, _, _, _, _, _, _, _, _ => none
  | _ => none

/-- Encode `BookSearchResult`. -/
def encBookSearchResult (r : BookSearchResult) : JsonVal :=
  .jobj [("meta", encMeta r.Meta), ("documents", .jarr (r.Documents.map encBookResult))]

/-- Decode `BookSearchResult`. -/
def decBookSearchResult : JsonVal → Option BookSearchResult
  | .jobj fs =>
    match (jlookup "meta" fs).bind decMeta,
          (jlookup "documents" fs).bind (fun j =>
            match j with
            | .jarr xs => optMap decBookResult xs
            | _ => none) with
    | some m, some docs => some { Meta := m, Documents := docs }
    | _, _ => none
  | _ => none

/-- Encode `BookSearchResults` (a JSON array of pages). -/
def encBookSearchResults (rs : BookSearchResults) : JsonVal :=
  .jarr (List.map encBookSearchResult rs)

/-- Decode `BookSearchResults`. -/
def decBookSearchResults : JsonVal → Option BookSearchResults
  | .jarr xs => optMap decBookSearchResult xs
  | _ => none

/-- Modelled from the spec: `common.SaveAsJSON` (not in the excerpt)
"serializes itself as indented JSON to a caller-specified path".  The file
system is modelled as a map from names to the JSON value a file holds;
rendering to indented text and lexing it back are inverse by the JSON
grammar and are not re-modelled here. -/
def SaveAsJSON (v : JsonVal) (filename : String)
    (fs : String → Option JsonVal) : String → Option JsonVal :=
  fun n => if n = filename then some v else fs n

/-- `FaceDetectResult.SaveAs`: delegates to `common.SaveAsJSON`. -/
def FaceDetectResult.SaveAs (fr : FaceDetectResult) (filename : String)
    (fs : String → Option JsonVal) : String → Option JsonVal :=
  SaveAsJSON (encFaceDetectResult fr) filename fs

/-- `BookSearchResults.SaveAs`: delegates to `common.SaveAsJSON`. -/
def BookSearchResults.SaveAs (brs : BookSearchResults) (filename : String)
    (fs : String → Option JsonVal) : String → Option JsonVal :=
  SaveAsJSON (encBookSearchResults brs) filename fs

/-- Elementwise round trip lifts to `optMap` over a mapped list. -/
theorem optMap_map {α : Type} (d : JsonVal → Option α) (e : α → JsonVal)
    (h : ∀ x, d (e x) = some x) (xs : List α) : optMap d (xs.map e) = some xs := by
  induction xs with
  | nil => rfl
  | cons a as ih => simp [optMap, h, ih]

@[simp] theorem asNum_jnum (q : ℚ) : asNum (.jnum q) = some q := rfl

@[simp] theorem asStr_jstr (s : String) : asStr (.jstr s) = some s := rfl

@[simp] theorem asBool_jbool (b : Bool) : asBool (.jbool b) = some b := rfl

@[simp] theorem asInt_encInt (i : Int) : asInt (encInt i) = some i := by
  simp [asInt, encInt]

@[simp] theorem decNumArr_enc (xs : List ℚ) : decNumArr (encNumArr xs) = some xs := by
  simpa [decNumArr, encNumArr] using optMap_map asNum JsonVal.jnum (fun _ => rfl) xs

@[simp] theorem decNumArr2_enc (xs : List (List ℚ)) :
    decNumArr2 (encNumArr2 xs) = some xs := by
  simpa [decNumArr2, encNumArr2] using optMap_map decNumArr encNumArr decNumArr_enc xs

@[simp] theorem decStrArr_enc (xs : List String) : decStrArr (encStrArr xs) = some xs := by
  simpa [decStrArr, encStrArr] using optMap_map asStr JsonVal.jstr (fun _ => rfl) xs

@[simp] theorem decGender_enc (g : Gender) : decGender (encGender g) = some g := rfl

@[simp] theorem decFacialAttributes_enc (a : FacialAttributes) :
    decFacialAttributes (encFacialAttributes a) = some a := rfl

@[simp] theorem decFacialPoints_enc (p : FacialPoints) :
    decFacialPoints (encFacialPoints p) = some p := by
  simp [decFacialPoints, encFacialPoints, jlookup]

@[simp] theorem decFace_enc (f : Face) : decFace (encFace f) = some f := by
  simp [decFace, encFace, jlookup]

@[simp] theorem decFaceResult_enc (r : FaceResult) :
    decFaceResult (encFaceResult r) = some r := by
  simp [decFaceResult, encFaceResult, jlookup, optMap_map decFace encFace decFace_enc]

@[simp] theorem decFaceDetectResult_enc (r : FaceDetectResult) :
    decFaceDetectResult (encFaceDetectResult r) = some r := by
  simp [decFaceDetectResult, encFaceDetectResult, jlookup]

@[simp] theorem decMeta_enc (m : PageableMeta) : decMeta (encMeta m) = some m := rfl

@[simp] theorem decBookResult_enc (b : BookResult) :
    decBookResult (encBookResult b) = some b := by
  simp [decBookResult, encBookResult, jlookup]

@[simp] theorem decBookSearchResult_enc (r : BookSearchResult) :
    decBookSearchResult (encBookSearchResult r) = some r := by
  simp [decBookSearchResult, encBookSearchResult, jlookup,
    optMap_map decBookResult encBookResult decBookResult_enc]

@[simp] theorem decBookSearchResults_enc (rs : BookSearchResults) :
    decBookSearchResults (encBookSearchResults rs) = some rs := by
  simpa [decBookSearchResults, encBookSearchResults] using
    optMap_map decBookSearchResult encBookSearchResult decBookSearchResult_enc rs

/-- Claim C1: for a `FaceDetectInitializer` in file mode whose file exceeds
2*1024*1024 bytes, `Collect` returns before any network transfer is
attempted — but, contrary to the claim, the returned error is `nil`: the
over-size guard executes `return res, err` with the block-local `err` that
`os.Open` just set to `nil`, so the call "succeeds" with a zero result. -/
theorem C1_oversized_upload_behavior (fi : FaceDetectInitializer)
    (fileSize : String → Option Int) (mp : MultipartOutcome) (net : VisionNet)
    (sz : Int) (hw : fi.withFile = true) (hf : fileSize fi.Filename = some sz)
    (hsz : 2 * 1024 * 1024 < sz) :
    (fi.Collect fileSize mp net).networkAttempted = false ∧
    (fi.Collect fileSize mp net).err = none := by
  have hsz2 : (2097152 : Int) < sz := by omega
  constructor <;> simp [FaceDetectInitializer.Collect, hw, hf, hsz2]

/-- Witness for C1 at a 2 MiB + 1 byte file. -/
theorem C1_oversized_upload_behavior_witness :
    (((FaceDetect.WithFile "big.jpg").Collect
        (fun n => if n = "big.jpg" then some 2097153 else none)
        .okBody (.ok zeroFaceDetectResult)).networkAttempted = false) ∧
    (((FaceDetect.WithFile "big.jpg").Collect
        (fun n => if n = "big.jpg" then some 2097153 else none)
        .okBody (.ok zeroFaceDetectResult)).err = none) :=
  C1_oversized_upload_behavior (FaceDetect.WithFile "big.jpg")
    (fun n => if n = "big.jpg" then some 2097153 else none)
    .okBody (.ok zeroFaceDetectResult) 2097153 rfl rfl (by decide)

/-- Claim C2: a successful `Next` call made while `Page = 50` sets the end
flag no matter what `IsEnd` the server reported, and any `Next` call on an
iterator whose end flag is set returns the `ErrEndPage` sentinel at once,
performs no network request, and leaves the state unchanged (in particular
the call following the page-50 step does). -/
theorem C2_page50_forces_exhaustion (bi bj : BookSearchIterator)
    (r : BookSearchResult) (net net2 : NetOutcome)
    (hp : bi.Page = 50) (he : bi.endFlag = false) (hbj : bj.endFlag = true) :
    (bi.Next (.ok r)).post.endFlag = true ∧
    ((bi.Next (.ok r)).post.Next net2 =
      { post := (bi.Next (.ok r)).post, res := zeroBookSearchResult
        err := some .endPage, requestedURL := none }) ∧
    (bj.Next net =
      { post := bj, res := zeroBookSearchResult
        err := some .endPage, requestedURL := none }) := by
  have general : ∀ b : BookSearchIterator, b.endFlag = true → ∀ nt : NetOutcome,
      b.Next nt = { post := b, res := zeroBookSearchResult
                    err := some .endPage, requestedURL := none } := by
    intro b hb nt
    simp [BookSearchIterator.Next, hb]
  have h1 : (bi.Next (.ok r)).post.endFlag = true := by
    simp [BookSearchIterator.Next, he, hp]
  exact ⟨h1, general _ h1 net2, general bj hbj net⟩

/-- Witness for C2 at a concrete page-50 iterator and a response that
reports `IsEnd = false`. -/
theorem C2_page50_forces_exhaustion_witness :
    (({ BookSearch "q" with Page := 50 }.Next (.ok zeroBookSearchResult)).post.endFlag = true) ∧
    (({ BookSearch "q" with Page := 50 }.Next (.ok zeroBookSearchResult)).post.Next (.ok zeroBookSearchResult) =
      { post := ({ BookSearch "q" with Page := 50 }.Next (.ok zeroBookSearchResult)).post
        res := zeroBookSearchResult, err := some .endPage, requestedURL := none }) ∧
    ({ BookSearch "q" with endFlag := true }.Next (.ok zeroBookSearchResult) =
      { post := { BookSearch "q" with endFlag := true }
        res := zeroBookSearchResult, err := some .endPage, requestedURL := none }) :=
  C2_page50_forces_exhaustion { BookSearch "q" with Page := 50 }
    { BookSearch "q" with endFlag := true } zeroBookSearchResult
    (.ok zeroBookSearchResult) (.ok zeroBookSearchResult) rfl rfl rfl

/-- Claim C3: `Result` and `Display` panic on any argument outside `[1, 50]`
leaving every field unchanged, and on any argument inside `[1, 50]` update
exactly their own field without panicking. -/
theorem C3_result_display_validation (bi : BookSearchIterator) (n : Int) :
    (¬(1 ≤ n ∧ n ≤ 50) →
      bi.Result n = { post := bi, panicked := some .pageOutOfBound, logPanicked := false } ∧
      bi.Display n = { post := bi, panicked := some .sizeOutOfBound, logPanicked := false }) ∧
    ((1 ≤ n ∧ n ≤ 50) →
      bi.Result n = { post := { bi with Page := n }
                      panicked := none, logPanicked := false } ∧
      bi.Display n = { post := { bi with Size := n }
                       panicked := none, logPanicked := false }) := by
  constructor <;> intro h <;>
    simp [BookSearchIterator.Result, BookSearchIterator.Display, h, recoverNormal]

/-- Witness for C3 at the out-of-range page 51 and the in-range page 7. -/
theorem C3_result_display_validation_witness :
    ((BookSearch "q").Result 51 =
      { post := BookSearch "q", panicked := some .pageOutOfBound, logPanicked := false }) ∧
    ((BookSearch "q").Result 7 =
      { post := { BookSearch "q" with Page := 7 }
        panicked := none, logPanicked := false }) :=
  ⟨((C3_result_display_validation (BookSearch "q") 51).1 (by decide)).1,
   ((C3_result_display_validation (BookSearch "q") 7).2 (by decide)).1⟩

/-- Claim C4: in every set-then-recover setter (`SortBy`, `Result`,
`Display`, `Filter`, `ThresholdAt`) the `log.Panicln` inside the
`if r := recover(); r != nil` block never executes: an invalid argument
panics before the line is reached, and for a valid argument `recover()`
returns `nil` in straight-line code. -/
theorem C4_recover_branch_dead (bi : BookSearchIterator)
    (fi : FaceDetectInitializer) (order target : String) (page size : Int)
    (val : ℚ) :
    (bi.SortBy order).logPanicked = false ∧
    (bi.Result page).logPanicked = false ∧
    (bi.Display size).logPanicked = false ∧
    (bi.Filter target).logPanicked = false ∧
    (fi.ThresholdAt val).logPanicked = false := by
  refine ⟨?_, ?_, ?_, ?_, ?_⟩ <;>
    simp only [BookSearchIterator.SortBy, BookSearchIterator.Result,
      BookSearchIterator.Display, BookSearchIterator.Filter,
      FaceDetectInitializer.ThresholdAt] <;>
    split <;> simp [recoverNormal]

/-- Claim C5: the end flag is absorbing — once it is `true`, no operation on
the iterator (`AuthorizeWith`, `SortBy`, `Result`, `Display`, `Filter`, or
`Next` under any network outcome) ever makes it `false` again. -/
theorem C5_end_flag_monotone (bi : BookSearchIterator) (key order target : String)
    (page size : Int) (net : NetOutcome) (he : bi.endFlag = true) :
    (bi.AuthorizeWith key).endFlag = true ∧
    (bi.SortBy order).post.endFlag = true ∧
    (bi.Result page).post.endFlag = true ∧
    (bi.Display size).post.endFlag = true ∧
    (bi.Filter target).post.endFlag = true ∧
    (bi.Next net).post.endFlag = true := by
  refine ⟨?_, ?_, ?_, ?_, ?_, ?_⟩
  · simp [BookSearchIterator.AuthorizeWith, he]
  · unfold BookSearchIterator.SortBy; split <;> simp [he]
  · unfold BookSearchIterator.Result; split <;> simp [he]
  · unfold BookSearchIterator.Display; split <;> simp [he]
  · unfold BookSearchIterator.Filter; split <;> simp [he]
  · simp [BookSearchIterator.Next, he]

/-- Witness for C5 at a concrete exhausted iterator. -/
theorem C5_end_flag_monotone_witness :
    (({ BookSearch "q" with endFlag := true }.AuthorizeWith "k").endFlag = true) ∧
    (({ BookSearch "q" with endFlag := true }.SortBy "latest").post.endFlag = true) ∧
    (({ BookSearch "q" with endFlag := true }.Result 2).post.endFlag = true) ∧
    (({ BookSearch "q" with endFlag := true }.Display 3).post.endFlag = true) ∧
    (({ BookSearch "q" with endFlag := true }.Filter "isbn").post.endFlag = true) ∧
    (({ BookSearch "q" with endFlag := true }.Next (.ok zeroBookSearchResult)).post.endFlag = true) :=
  C5_end_flag_monotone { BookSearch "q" with endFlag := true }
    "k" "latest" "isbn" 2 3 (.ok zeroBookSearchResult) rfl

/-- The builder chain of the C6 example:
`BookSearch("오브젝트").AuthorizeWith(key).Result(1).Display(5)`. -/
def c6Chain (key : String) : BookSearchIterator :=
  ((((BookSearch "오브젝트").AuthorizeWith key).Result 1).post.Display 5).post

/-- An empty book document (all fields at their zero values). -/
def emptyBookResult : BookResult :=
  { web := { Title := "", Contents := "", URL := "", Datetime := "" }
    ISBN := "", Authors := [], Publisher := "", Translators := []
    Price := 0, SalePrice := 0, Thumbnail := "", Status := "" }

/-- A syntactically valid server response carrying six documents — more
than the requested page size of five. -/
def c6SixDocs : BookSearchResult :=
  { Meta := { TotalCount := 6, IsEnd := true }
    Documents := List.replicate 6 emptyBookResult }

/-- Counterexample to claim C6 as stated: the client forwards the decoded
response verbatim, so when the server answers the `page=1&size=5` request
with six documents, the returned `Documents` slice has length six — the
claimed bound of five does not hold for the program alone. -/
theorem C6_counterexample :
    ¬(((c6Chain "key").Next (.ok c6SixDocs)).res.Documents.length ≤ 5) := by
  decide

/-- Claim C6 (amended): the chain configures `page=1` and `size=5` without
panicking, `Next` issues exactly one GET whose query string contains
`page=1&size=5`, and it returns the decoded server response unchanged — so
its `Documents` length is at most five whenever the server honours the
requested size. -/
theorem C6_chain_request (key : String) (r : BookSearchResult)
    (hr : r.Documents.length ≤ 5) :
    ((((BookSearch "오브젝트").AuthorizeWith key).Result 1).panicked = none) ∧
    (((((BookSearch "오브젝트").AuthorizeWith key).Result 1).post.Display 5).panicked = none) ∧
    ((c6Chain key).Page = 1 ∧ (c6Chain key).Size = 5) ∧
    strContains (bookSearchURL (c6Chain key)) "page=1&size=5" = true ∧
    ((c6Chain key).Next (.ok r)).requestedURL = some (bookSearchURL (c6Chain key)) ∧
    ((c6Chain key).Next (.ok r)).res = r ∧
    ((c6Chain key).Next (.ok r)).res.Documents.length ≤ 5 := by
  have hurl : bookSearchURL (c6Chain key) = bookSearchURL (c6Chain "x") := rfl
  refine ⟨rfl, rfl, ⟨rfl, rfl⟩, ?_, rfl, rfl, ?_⟩
  · rw [hurl]; decide
  · have hres : ((c6Chain key).Next (.ok r)).res = r := rfl
    rw [hres]; exact hr

/-- Witness for C6 (amended) at an empty response. -/
theorem C6_chain_request_witness :
    ((((BookSearch "오브젝트").AuthorizeWith "key").Result 1).panicked = none) ∧
    (((((BookSearch "오브젝트").AuthorizeWith "key").Result 1).post.Display 5).panicked = none) ∧
    ((c6Chain "key").Page = 1 ∧ (c6Chain "key").Size = 5) ∧
    strContains (bookSearchURL (c6Chain "key")) "page=1&size=5" = true ∧
    ((c6Chain "key").Next (.ok zeroBookSearchResult)).requestedURL =
      some (bookSearchURL (c6Chain "key")) ∧
    ((c6Chain "key").Next (.ok zeroBookSearchResult)).res = zeroBookSearchResult ∧
    ((c6Chain "key").Next (.ok zeroBookSearchResult)).res.Documents.length ≤ 5 :=
  C6_chain_request "key" zeroBookSearchResult (by decide)

/-- Claim C7: saving any result value with `SaveAs` and re-reading the
written file decodes to a structure identical to the saved value, for both
`FaceDetectResult` and `BookSearchResults`. -/
theorem C7_saveas_roundtrip (fr : FaceDetectResult) (brs : BookSearchResults)
    (fdname bname : String) (fs1 fs2 : String → Option JsonVal) :
    (fr.SaveAs fdname fs1 fdname).bind decFaceDetectResult = some fr ∧
    (brs.SaveAs bname fs2 bname).bind decBookSearchResults = some brs := by
  constructor <;>
    simp [FaceDetectResult.SaveAs, BookSearchResults.SaveAs, SaveAsJSON]

/-- Claim C8: distinct setters with valid arguments commute — applying any
two of `SortBy`, `Result`, `Display`, `Filter`, `AuthorizeWith` in either
order yields the same final configuration. -/
theorem C8_setters_commute (bi : BookSearchIterator) (key order target : String)
    (page size : Int)
    (ho : order = "accuracy" ∨ order = "latest")
    (hp : 1 ≤ page ∧ page ≤ 50) (hs : 1 ≤ size ∧ size ≤ 50)
    (ht : target = "title" ∨ target = "isbn" ∨ target = "publisher" ∨
      target = "person" ∨ target = "") :
    ((bi.SortBy order).post.Result page).post = ((bi.Result page).post.SortBy order).post ∧
    ((bi.SortBy order).post.Display size).post = ((bi.Display size).post.SortBy order).post ∧
    ((bi.SortBy order).post.Filter target).post = ((bi.Filter target).post.SortBy order).post ∧
    ((bi.Result page).post.Display size).post = ((bi.Display size).post.Result page).post ∧
    ((bi.Result page).post.Filter target).post = ((bi.Filter target).post.Result page).post ∧
    ((bi.Display size).post.Filter target).post = ((bi.Filter target).post.Display size).post ∧
    ((bi.AuthorizeWith key).SortBy order).post = ((bi.SortBy order).post.AuthorizeWith key) ∧
    ((bi.AuthorizeWith key).Result page).post = ((bi.Result page).post.AuthorizeWith key) ∧
    ((bi.AuthorizeWith key).Display size).post = ((bi.Display size).post.AuthorizeWith key) ∧
    ((bi.AuthorizeWith key).Filter target).post = ((bi.Filter target).post.AuthorizeWith key) := by
  obtain ⟨hp1, hp2⟩ := hp
  obtain ⟨hs1, hs2⟩ := hs
  refine ⟨?_, ?_, ?_, ?_, ?_, ?_, ?_, ?_, ?_, ?_⟩ <;>
    simp [BookSearchIterator.SortBy, BookSearchIterator.Result,
      BookSearchIterator.Display, BookSearchIterator.Filter,
      BookSearchIterator.AuthorizeWith, ho, ht, hp1, hp2, hs1, hs2]

/-- Witness for C8 at concrete valid arguments. -/
theorem C8_setters_commute_witness :
    (((BookSearch "q").SortBy "latest").post.Result 2).post =
      (((BookSearch "q").Result 2).post.SortBy "latest").post :=
  (C8_setters_commute (BookSearch "q") "k" "latest" "isbn" 2 3
    (by decide) (by decide) (by decide) (by decide)).1

/-- Claim C9: when `Next` fails at request construction, transport, or JSON
decoding, the iterator state is untouched — `Page` is not incremented and
the end flag keeps its prior value — so the following `Next` call requests
exactly the same URL (the same page) again. -/
theorem C9_error_leaves_state (bi : BookSearchIterator) (m : String)
    (part r : BookSearchResult) (he : bi.endFlag = false) :
    (bi.Next (.newRequestErr m)).post = bi ∧
    (bi.Next (.newRequestErr m)).err = some (.transport m) ∧
    (bi.Next (.doErr m)).post = bi ∧
    (bi.Next (.doErr m)).err = some (.transport m) ∧
    (bi.Next (.decodeErr m part)).post = bi ∧
    (bi.Next (.decodeErr m part)).err = some (.transport m) ∧
    ((bi.Next (.doErr m)).post.Next (.ok r)).requestedURL = some (bookSearchURL bi) := by
  refine ⟨?_, ?_, ?_, ?_, ?_, ?_, ?_⟩ <;> simp [BookSearchIterator.Next, he]

/-- Witness for C9 at a concrete fresh iterator. -/
theorem C9_error_leaves_state_witness :
    ((BookSearch "q").Next (.newRequestErr "e")).post = BookSearch "q" ∧
    ((BookSearch "q").Next (.newRequestErr "e")).err = some (.transport "e") ∧
    ((BookSearch "q").Next (.doErr "e")).post = BookSearch "q" ∧
    ((BookSearch "q").Next (.doErr "e")).err = some (.transport "e") ∧
    ((BookSearch "q").Next (.decodeErr "e" zeroBookSearchResult)).post = BookSearch "q" ∧
    ((BookSearch "q").Next (.decodeErr "e" zeroBookSearchResult)).err = some (.transport "e") ∧
    (((BookSearch "q").Next (.doErr "e")).post.Next (.ok zeroBookSearchResult)).requestedURL =
      some (bookSearchURL (BookSearch "q")) :=
  C9_error_leaves_state (BookSearch "q") "e" zeroBookSearchResult zeroBookSearchResult rfl

/-- Claim C10: `Filter` accepts the empty string as a fifth valid target,
setting `Target` to `""` without panicking, while any string outside the
five-element switch panics and leaves the iterator unchanged. -/
theorem C10_filter_empty_target (bi : BookSearchIterator) (t : String)
    (ht : ¬(t = "title" ∨ t = "isbn" ∨ t = "publisher" ∨ t = "person" ∨ t = "")) :
    (bi.Filter "").panicked = none ∧
    (bi.Filter "").post = { bi with Target := "" } ∧
    (bi.Filter t).panicked = some .filterTarget ∧
    (bi.Filter t).post = bi := by
  refine ⟨rfl, rfl, ?_, ?_⟩ <;> simp [BookSearchIterator.Filter, ht]

/-- Witness for C10 at the rejected target `author`. -/
theorem C10_filter_empty_target_witness :
    ((BookSearch "q").Filter "").panicked = none ∧
    ((BookSearch "q").Filter "").post = { BookSearch "q" with Target := "" } ∧
    ((BookSearch "q").Filter "author").panicked = some .filterTarget ∧
    ((BookSearch "q").Filter "author").post = BookSearch "q" :=
  C10_filter_empty_target (BookSearch "q") "author" (by decide)
